import Mathlib

/-!
Verification development for the VitalViz system monitor.

The repository has three front-ends sharing one sampling / rate-derivation /
bounded-history / threshold-alerting engine:
  - system_dashboard.py      (terminal front-end)
  - system_dashboard_gui.py  (basic GUI)
  - vitalviz_gui.py          (feature-rich GUI)

This file shallowly embeds the engine pieces those front-ends implement
inline.  Counter values are modelled as integers and derived rates as
rationals; byte and percentage arithmetic in the source is float arithmetic,
but every division performed by the source here is by a power of two or by
an elapsed-time value that the theorems quantify over, so the rational model
is faithful to the quantities the claims speak about.  Division by zero is
never relied on: the tick function branches explicitly on a zero elapsed
time, modelling the ZeroDivisionError the Python raises there.
-/

namespace VitalViz

/-- Network cumulative counters as returned by psutil.net_io_counters and
consumed by generate_network_table and the update_data loops. -/
structure NetCounters where
  bytes_sent : ℤ
  bytes_recv : ℤ
  packets_sent : ℤ
  packets_recv : ℤ
deriving DecidableEq, Repr

/-- The four per-second rates derived from two consecutive counter readings. -/
structure DerivedRates where
  bytes_sent_per_sec : ℚ
  bytes_recv_per_sec : ℚ
  packets_sent_per_sec : ℚ
  packets_recv_per_sec : ℚ
deriving DecidableEq, Repr

/-- Rate derivation exactly as written in system_dashboard.py,
generate_network_table (lines 138-160): each rate is
(curr - prev) / time_diff, with no clamp and no guard on time_diff.
vitalviz_gui.py lines 602-603 and system_dashboard_gui.py lines 283-284
compute the two byte rates with the same formula. -/
def deriveRates (prev curr : NetCounters) (time_diff : ℚ) : DerivedRates :=
  { bytes_sent_per_sec := ((curr.bytes_sent - prev.bytes_sent : ℤ) : ℚ) / time_diff
  , bytes_recv_per_sec := ((curr.bytes_recv - prev.bytes_recv : ℤ) : ℚ) / time_diff
  , packets_sent_per_sec := ((curr.packets_sent - prev.packets_sent : ℤ) : ℚ) / time_diff
  , packets_recv_per_sec := ((curr.packets_recv - prev.packets_recv : ℤ) : ℚ) / time_diff }

/-- The history-trimming idiom used for every series in the update loops
(vitalviz_gui.py lines 586-599, system_dashboard_gui.py lines 267-280):
if len(series) >= cap: series.pop(0); then series.append(v). -/
def pushHist {α : Type} (cap : ℕ) (l : List α) (v : α) : List α :=
  if cap ≤ l.length then l.drop 1 ++ [v] else l ++ [v]

/-- Per-core CPU history update (vitalviz_gui.py lines 590-594): the loop
enumerates cpu_usage and pushes usage i into cpu_history i; histories beyond
the length of the usage list are left untouched.  (The source would raise
IndexError if the usage list were longer than the history list; the core
count is fixed at construction, so the lists always have equal length.) -/
def updateCpuHist (hs : List (List ℚ)) (us : List ℚ) : List (List ℚ) :=
  match hs, us with
  | hs, [] => hs
  | [], _ => []
  | h :: hs, u :: us => pushHist 60 h u :: updateCpuHist hs us

/-- Mutable state of the GUI monitors: the five history series, the previous
counter reading and its timestamp (seeded in __init__), and the run-time
settings of vitalviz_gui (update_interval, max_history,
enable_notifications; the theme entry is presentation-only and omitted).
Timestamps in time_points are formatted strings in the source; they are
modelled as the underlying instants. -/
structure MonState where
  cpu_history : List (List ℚ)
  memory_history : List ℚ
  network_recv_history : List ℚ
  network_sent_history : List ℚ
  time_points : List ℚ
  prev_counters : NetCounters
  prev_time : ℚ
  update_interval : ℚ
  max_history : ℕ
  enable_notifications : Bool
deriving DecidableEq, Repr

/-- Initial state built by SystemMonitorGUI.__init__ (vitalviz_gui.py lines
136-172, system_dashboard_gui.py lines 46-54): empty histories, one empty
CPU history per core, and the previous network reading and time seeded with
the counters and clock at construction. -/
def initState (c0 : NetCounters) (t0 : ℚ) (ncores : ℕ) : MonState :=
  { cpu_history := List.replicate ncores []
  , memory_history := []
  , network_recv_history := []
  , network_sent_history := []
  , time_points := []
  , prev_counters := c0
  , prev_time := t0
  , update_interval := 1
  , max_history := 60
  , enable_notifications := true }

/-- One iteration of SystemMonitorGUI.update_data (vitalviz_gui.py lines
573-632; system_dashboard_gui.py lines 255-305 is line-identical on this
path).  The loop body, in source order: compute time_diff; push the tick
instant, the per-core usages and the memory percent into their histories
(each with the local constant MAX_HISTORY = 60, not the max_history
setting); compute the byte rates by dividing by time_diff; trim both
network histories when the sent history is full (the condition tests only
the sent history) and append one rate to each; finally overwrite
prev_counters and prev_time.  When time_diff is exactly zero the rate
division raises ZeroDivisionError: in vitalviz_gui the surrounding
try/except catches it and the loop continues, so everything from the rate
computation on is skipped for that tick, which the zero branch models. -/
def updateTick (s : MonState) (now : ℚ) (cpu_usage : List ℚ)
    (mem_percent : ℚ) (curr : NetCounters) : MonState :=
  let time_diff := now - s.prev_time
  let tp := pushHist 60 s.time_points now
  let ch := updateCpuHist s.cpu_history cpu_usage
  let mh := pushHist 60 s.memory_history mem_percent
  if time_diff = 0 then
    { s with time_points := tp, cpu_history := ch, memory_history := mh }
  else
    let bs := ((curr.bytes_sent - s.prev_counters.bytes_sent : ℤ) : ℚ) / time_diff
    let br := ((curr.bytes_recv - s.prev_counters.bytes_recv : ℤ) : ℚ) / time_diff
    let sent2 := if 60 ≤ s.network_sent_history.length
      then s.network_sent_history.drop 1 ++ [bs]
      else s.network_sent_history ++ [bs]
    let recv2 := if 60 ≤ s.network_sent_history.length
      then s.network_recv_history.drop 1 ++ [br]
      else s.network_recv_history ++ [br]
    { s with time_points := tp, cpu_history := ch, memory_history := mh,
             network_sent_history := sent2, network_recv_history := recv2,
             prev_counters := curr, prev_time := now }

/-- Iterated ticks of the update loop; each tick carries the wall-clock
instant, the per-core usages, the memory percent and the counter reading
the Metrics Provider returned on that iteration. -/
def runTicks (s : MonState) : List (ℚ × List ℚ × ℚ × NetCounters) → MonState
  | [] => s
  | t :: ts => runTicks (updateTick s t.1 t.2.1 t.2.2.1 t.2.2.2) ts

/-- SystemMonitorGUI.reset_graphs (vitalviz_gui.py lines 872-879): every
history series is replaced by a fresh empty list, with one empty CPU
history per core. -/
def resetGraphs (s : MonState) (ncores : ℕ) : MonState :=
  { s with cpu_history := List.replicate ncores []
         , memory_history := []
         , network_recv_history := []
         , network_sent_history := []
         , time_points := [] }

/-- save_settings inside create_settings_dialog (vitalviz_gui.py lines
979-985): the dialog values are stored on the instance and the theme is
re-applied; nothing else happens - in particular no series is touched. -/
def saveSettings (s : MonState) (interval : ℚ) (cap : ℕ) (notifs : Bool) :
    MonState :=
  { s with update_interval := interval, max_history := cap,
           enable_notifications := notifs }

/-- Threshold events.  The source emits an event by calling notify; only
raise events are ever emitted (check_thresholds has no notify call on its
clear branches), but the cleared constructor is needed to state what the
spec asserts about clearing. -/
inductive AlertEvent where
  | alertRaised (v : ℚ)
  | alertCleared (v : ℚ)
deriving DecidableEq, Repr

/-- One evaluation of the CPU branch of SystemMonitorGUI.check_thresholds
(vitalviz_gui.py lines 821-827).  The Alerted state is the presence of the
cpu_notified attribute, modelled as a Bool.  Source: if avg_cpu > 90 and
not hasattr: notify(raise) and set the flag; elif avg_cpu < 70 and hasattr:
delete the flag, with no notify call.  The memory branch (lines 829-834) is
the same machine with thresholds 85/75. -/
def checkCpuThreshold (cpu_notified : Bool) (avg_cpu : ℚ) : Bool × List AlertEvent :=
  if 90 < avg_cpu ∧ cpu_notified = false then
    (true, [AlertEvent.alertRaised avg_cpu])
  else if avg_cpu < 70 ∧ cpu_notified = true then
    (false, [])
  else
    (cpu_notified, [])

/-- The per-tick event lists produced by feeding a value sequence through
check_thresholds, threading the notified flag. -/
def runCpuThresholds (cpu_notified : Bool) : List ℚ → List (List AlertEvent)
  | [] => []
  | v :: vs =>
      (checkCpuThreshold cpu_notified v).2 ::
        runCpuThresholds (checkCpuThreshold cpu_notified v).1 vs

/-- The state of the notified flag after feeding a value sequence through
check_thresholds. -/
def foldCpuThresholds (cpu_notified : Bool) (vs : List ℚ) : Bool :=
  List.foldl (fun b v => (checkCpuThreshold b v).1) cpu_notified vs

/-- Delivery of one tick to the consumers of the update loop
(vitalviz_gui.py lines 613-623: the root.after dispatch calls and
check_thresholds, executed in registration order inside the single
try/except of the loop body).  A consumer is modelled by which ticks its
delivery call succeeds on; entry i of the result records whether consumer
i was invoked on this tick.  When an invocation raises (c t = false), the
exception propagates out of the remaining statements of the tick body, so
every later consumer is skipped for this tick. -/
def dispatchTick (cs : List (ℕ → Bool)) (t : ℕ) : List Bool :=
  match cs with
  | [] => []
  | c :: rest =>
      if c t then true :: dispatchTick rest t
      else true :: rest.map (fun _ => false)

/-- The sampling loop over ticks 0..n-1 (vitalviz_gui.py lines 573-632):
the except clause of the loop body only prints, so the while loop reaches
every tick no matter what a delivery raised. -/
def runLoop (cs : List (ℕ → Bool)) (n : ℕ) : List (List Bool) :=
  (List.range n).map (fun t => dispatchTick cs t)

/-- Loop of size_formatter (system_dashboard.py lines 59-65) over the
remaining unit names: return at the first unit where the scaled value is
below 1024, otherwise divide by 1024 and continue; after the unit list is
exhausted the value is reported in PB.  The source formats the value with
two decimal places; the model returns the exact value-unit pair the format
is applied to, and since 1024 is a power of two the float divisions of the
source are exact for realistic byte counts. -/
def sizeFormatterGo : ℚ → List String → ℚ × String
  | bytes_value, [] => (bytes_value, "PB")
  | bytes_value, unit :: units =>
      if bytes_value < 1024 then (bytes_value, unit)
      else sizeFormatterGo (bytes_value / 1024) units

/-- size_formatter (system_dashboard.py lines 59-65). -/
def sizeFormatter (bytes_value : ℚ) : ℚ × String :=
  sizeFormatterGo bytes_value ["B", "KB", "MB", "GB", "TB"]

/-- The unit names in ascending order, as indexed in claim statements. -/
def sizeUnits : List String := ["B", "KB", "MB", "GB", "TB"]

/-- A concrete mid-run monitor state: one prior tick recorded, previous
counters 1000/1000 read at instant 10. -/
def exampleState : MonState :=
  { cpu_history := [[50]]
  , memory_history := [40]
  , network_recv_history := [100]
  , network_sent_history := [100]
  , time_points := [10]
  , prev_counters := ⟨1000, 1000, 0, 0⟩
  , prev_time := 10
  , update_interval := 1
  , max_history := 60
  , enable_notifications := true }

/-- A concrete monitor state whose series all hold 60 points, the trim
bound of the update loop. -/
def fullState : MonState :=
  { cpu_history := [List.replicate 60 50]
  , memory_history := List.replicate 60 40
  , network_recv_history := List.replicate 60 5
  , network_sent_history := List.replicate 60 5
  , time_points := List.replicate 60 0
  , prev_counters := ⟨0, 0, 0, 0⟩
  , prev_time := 0
  , update_interval := 1
  , max_history := 60
  , enable_notifications := true }

end VitalViz

namespace VitalViz

/-! ## Claim C4: bounded history series -/

/-- Helper: while the accumulated series stays below capacity, every push is
a plain append. -/
theorem pushHist_foldl_append {α : Type} (cap : ℕ) :
    ∀ (vs l : List α), l.length + vs.length ≤ cap →
      List.foldl (pushHist cap) l vs = l ++ vs := by
  intro vs
  induction vs with
  | nil => intro l _; simp
  | cons v vs ih =>
    intro l hlen
    have hlt : ¬ cap ≤ l.length := by
      simp only [List.length_cons] at hlen
      omega
    have hstep : pushHist cap l v = l ++ [v] := by
      simp [pushHist, hlt]
    rw [List.foldl_cons, hstep, ih (l ++ [v]) (by simp at hlen ⊢; omega)]
    simp

/-- Helper: once the series is exactly at capacity, folding further pushes
keeps only the trailing cap elements of the combined value stream. -/
theorem pushHist_foldl_full {α : Type} (cap : ℕ) (hcap : 1 ≤ cap) :
    ∀ (vs l : List α), l.length = cap →
      List.foldl (pushHist cap) l vs = (l ++ vs).drop vs.length := by
  intro vs
  induction vs with
  | nil => intro l _; simp
  | cons v vs ih =>
    intro l hlen
    have hge : cap ≤ l.length := le_of_eq hlen.symm
    have hstep : pushHist cap l v = l.drop 1 ++ [v] := by
      simp [pushHist, hge]
    have hlen2 : (l.drop 1 ++ [v]).length = cap := by
      simp [List.length_drop]
      omega
    rw [List.foldl_cons, hstep, ih _ hlen2]
    obtain ⟨a, l', rfl⟩ : ∃ a l', l = a :: l' := by
      cases l with
      | nil => simp at hlen; omega
      | cons a l' => exact ⟨a, l', rfl⟩
    simp [List.drop_succ_cons]

/-- C4: for the default capacity 60, pushing 60 + k values (k ≥ 1) into an
initially empty series leaves exactly 60 values, equal to the last 60
values pushed in push order, and a single push never takes a series of
length at most 60 above 60. -/
theorem C4_history_capacity :
    (∀ (vs : List ℚ) (k : ℕ), 1 ≤ k → vs.length = 60 + k →
        List.foldl (pushHist 60) [] vs = vs.drop k ∧
        (List.foldl (pushHist 60) [] vs).length = 60) ∧
    (∀ (l : List ℚ) (v : ℚ), l.length ≤ 60 → (pushHist 60 l v).length ≤ 60) := by
  constructor
  · intro vs k _ hlen
    have hsplit : vs.take 60 ++ vs.drop 60 = vs := List.take_append_drop 60 vs
    have htake : (vs.take 60).length = 60 := by
      rw [List.length_take]; omega
    have hdrop : (vs.drop 60).length = k := by
      rw [List.length_drop]; omega
    have hmain : List.foldl (pushHist 60) [] vs = vs.drop k := by
      conv_lhs => rw [← hsplit]
      rw [List.foldl_append]
      rw [pushHist_foldl_append 60 (vs.take 60) [] (by simp [htake])]
      rw [List.nil_append]
      rw [pushHist_foldl_full 60 (by omega) (vs.drop 60) (vs.take 60) htake]
      rw [hsplit, hdrop]
    refine ⟨hmain, ?_⟩
    rw [hmain, List.length_drop, hlen]
    omega
  · intro l v hle
    by_cases h : (60 : ℕ) ≤ l.length
    · have : l.length = 60 := le_antisymm hle h
      simp [pushHist, h, List.length_drop, this]
    · simp [pushHist, h]
      omega

/-- Witness for C4 at a concrete input: 61 zero values pushed into an empty
series leave the last 60, and one push keeps a 60-bounded series bounded. -/
theorem C4_history_capacity_witness :
    List.foldl (pushHist 60) [] (List.replicate 61 (0 : ℚ)) =
        (List.replicate 61 (0 : ℚ)).drop 1 ∧
      (pushHist 60 ([] : List ℚ) 0).length ≤ 60 := by
  refine ⟨(C4_history_capacity.1 (List.replicate 61 (0 : ℚ)) 1 (by omega)
    (by simp)).1, C4_history_capacity.2 [] 0 (by simp)⟩

end VitalViz

namespace VitalViz

/-! ## Claim C1: rate derivation and the missing reset clamp -/

/-- C1 counterexample: with previous counter 1000, current counter 500
(counter reset) and elapsed time 1, the code derives the rate -500: it is
strictly negative and differs from the max(0, curr - prev)/elapsed = 0 the
claim asserts. -/
theorem C1_rate_clamp_counterexample :
    (deriveRates ⟨1000, 0, 0, 0⟩ ⟨500, 0, 0, 0⟩ 1).bytes_sent_per_sec = -500 ∧
    (deriveRates ⟨1000, 0, 0, 0⟩ ⟨500, 0, 0, 0⟩ 1).bytes_sent_per_sec < 0 ∧
    (deriveRates ⟨1000, 0, 0, 0⟩ ⟨500, 0, 0, 0⟩ 1).bytes_sent_per_sec ≠
      max 0 (((500 : ℤ) - 1000 : ℤ) : ℚ) / 1 := by
  refine ⟨by norm_num [deriveRates], by norm_num [deriveRates], by norm_num [deriveRates]⟩

/-- Helper: sign and clamp-agreement of a single derived rate. -/
theorem rate_sign (a b : ℤ) (e : ℚ) (he : 0 < e) :
    (a ≤ b → ((b - a : ℤ) : ℚ) / e = max 0 ((b - a : ℤ) : ℚ) / e ∧
      0 ≤ ((b - a : ℤ) : ℚ) / e) ∧
    (b < a → ((b - a : ℤ) : ℚ) / e < 0) := by
  constructor
  · intro hab
    have h0 : (0 : ℚ) ≤ ((b - a : ℤ) : ℚ) := by
      exact_mod_cast sub_nonneg.mpr hab
    rw [max_eq_right h0]
    exact ⟨rfl, div_nonneg h0 he.le⟩
  · intro hba
    have h0 : ((b - a : ℤ) : ℚ) < 0 := by
      exact_mod_cast sub_neg.mpr hba
    exact div_neg_of_neg_of_pos h0 he

/-- C1 amended: for elapsed > 0 each derived rate is (curr - prev)/elapsed
with no clamp; it agrees with the claimed max(0, curr - prev)/elapsed and
is non-negative whenever the counter did not decrease, but is strictly
negative - not 0 - whenever the counter decreased. -/
theorem C1_amended_rate_formula (prev curr : NetCounters) (e : ℚ) (he : 0 < e) :
    ((prev.bytes_sent ≤ curr.bytes_sent →
        (deriveRates prev curr e).bytes_sent_per_sec =
          max 0 ((curr.bytes_sent - prev.bytes_sent : ℤ) : ℚ) / e ∧
        0 ≤ (deriveRates prev curr e).bytes_sent_per_sec) ∧
      (curr.bytes_sent < prev.bytes_sent →
        (deriveRates prev curr e).bytes_sent_per_sec < 0)) ∧
    ((prev.bytes_recv ≤ curr.bytes_recv →
        (deriveRates prev curr e).bytes_recv_per_sec =
          max 0 ((curr.bytes_recv - prev.bytes_recv : ℤ) : ℚ) / e ∧
        0 ≤ (deriveRates prev curr e).bytes_recv_per_sec) ∧
      (curr.bytes_recv < prev.bytes_recv →
        (deriveRates prev curr e).bytes_recv_per_sec < 0)) ∧
    ((prev.packets_sent ≤ curr.packets_sent →
        (deriveRates prev curr e).packets_sent_per_sec =
          max 0 ((curr.packets_sent - prev.packets_sent : ℤ) : ℚ) / e ∧
        0 ≤ (deriveRates prev curr e).packets_sent_per_sec) ∧
      (curr.packets_sent < prev.packets_sent →
        (deriveRates prev curr e).packets_sent_per_sec < 0)) ∧
    ((prev.packets_recv ≤ curr.packets_recv →
        (deriveRates prev curr e).packets_recv_per_sec =
          max 0 ((curr.packets_recv - prev.packets_recv : ℤ) : ℚ) / e ∧
        0 ≤ (deriveRates prev curr e).packets_recv_per_sec) ∧
      (curr.packets_recv < prev.packets_recv →
        (deriveRates prev curr e).packets_recv_per_sec < 0)) := by
  refine ⟨⟨?_, ?_⟩, ⟨?_, ?_⟩, ⟨?_, ?_⟩, ⟨?_, ?_⟩⟩ <;>
    intro h <;>
    simp only [deriveRates] <;>
    first
      | exact (rate_sign _ _ e he).1 h
      | exact (rate_sign _ _ e he).2 h

/-- Witness for C1 amended at a concrete input: sent bytes grew from 1000
to 3000 over 2 seconds, received bytes fell from 1000 to 500. -/
theorem C1_amended_rate_formula_witness :
    ((deriveRates ⟨1000, 1000, 10, 10⟩ ⟨3000, 500, 20, 5⟩ 2).bytes_sent_per_sec =
        max 0 (((3000 : ℤ) - 1000 : ℤ) : ℚ) / 2 ∧
      0 ≤ (deriveRates ⟨1000, 1000, 10, 10⟩ ⟨3000, 500, 20, 5⟩ 2).bytes_sent_per_sec) ∧
    (deriveRates ⟨1000, 1000, 10, 10⟩ ⟨3000, 500, 20, 5⟩ 2).bytes_recv_per_sec < 0 := by
  have h := C1_amended_rate_formula ⟨1000, 1000, 10, 10⟩ ⟨3000, 500, 20, 5⟩ 2 (by norm_num)
  exact ⟨h.1.1 (by norm_num), h.2.1.2 (by norm_num)⟩

/-! ## Claim C2: no guard on non-positive elapsed time -/

/-- C2 counterexample: from exampleState (previous tick at instant 10, last
recorded send rate 100), a tick at instant 9 has elapsed time -1 < 0; the
code does not skip rate computation or reuse the previous rate - it appends
the freshly computed rate (3000 - 1000)/(-1) = -2000 to the history. -/
theorem C2_elapsed_guard_counterexample :
    (9 : ℚ) - exampleState.prev_time < 0 ∧
    (updateTick exampleState 9 [50] 42 ⟨3000, 1000, 0, 0⟩).network_sent_history =
      [100, -2000] ∧
    (updateTick exampleState 9 [50] 42 ⟨3000, 1000, 0, 0⟩).network_sent_history ≠
      exampleState.network_sent_history := by
  refine ⟨by norm_num [exampleState], ?_, ?_⟩ <;>
    norm_num [updateTick, exampleState, pushHist, updateCpuHist]

/-- C2 amended: the code has no elapsed-time guard.  When elapsed is
exactly zero the rate division raises ZeroDivisionError and the loop-level
except catches it, so the network histories and the previous sample are
left unchanged for that tick (and no infinity or NaN is produced, the
operation raises instead); for any nonzero elapsed - including negative
elapsed - a fresh rate delta/elapsed is computed and appended, so a
negative elapsed with grown counters appends a negative rate rather than
reusing the previous one. -/
theorem C2_amended_no_elapsed_guard (s : MonState) (now : ℚ) (cpu : List ℚ)
    (mem : ℚ) (curr : NetCounters) :
    (now - s.prev_time = 0 →
      (updateTick s now cpu mem curr).network_sent_history =
          s.network_sent_history ∧
      (updateTick s now cpu mem curr).network_recv_history =
          s.network_recv_history ∧
      (updateTick s now cpu mem curr).prev_counters = s.prev_counters ∧
      (updateTick s now cpu mem curr).prev_time = s.prev_time) ∧
    (now - s.prev_time < 0 → s.prev_counters.bytes_sent < curr.bytes_sent →
      ∃ r, (updateTick s now cpu mem curr).network_sent_history.getLast? =
          some r ∧ r < 0) := by
  constructor
  · intro h0
    simp [updateTick, h0]
  · intro hneg hgrow
    have h0 : ¬ (now - s.prev_time = 0) := ne_of_lt hneg
    refine ⟨((curr.bytes_sent - s.prev_counters.bytes_sent : ℤ) : ℚ) /
      (now - s.prev_time), ?_, ?_⟩
    · simp only [updateTick, if_neg h0]
      by_cases h60 : 60 ≤ s.network_sent_history.length <;>
        simp [h60, List.getLast?_concat]
    · have hp : (0 : ℚ) < ((curr.bytes_sent - s.prev_counters.bytes_sent : ℤ) : ℚ) := by
        exact_mod_cast sub_pos.mpr hgrow
      exact div_neg_of_pos_of_neg hp hneg

/-- Witness for C2 amended at concrete inputs: a tick at instant 10 repeats
the previous instant of exampleState (elapsed zero, histories untouched),
and a tick at instant 9 (elapsed -1) with grown counters appends a negative
rate. -/
theorem C2_amended_no_elapsed_guard_witness :
    (updateTick exampleState 10 [50] 42 ⟨3000, 1000, 0, 0⟩).network_sent_history =
        exampleState.network_sent_history ∧
    (∃ r, (updateTick exampleState 9 [50] 42 ⟨3000, 1000, 0, 0⟩).network_sent_history.getLast? =
        some r ∧ r < 0) := by
  refine ⟨((C2_amended_no_elapsed_guard exampleState 10 [50] 42 _).1
      (by norm_num [exampleState])).1,
    (C2_amended_no_elapsed_guard exampleState 9 [50] 42 ⟨3000, 1000, 0, 0⟩).2
      (by norm_num [exampleState]) (by norm_num [exampleState])⟩

/-! ## Claim C3: threshold hysteresis and the silent clear transition -/

/-- C3 counterexample: feeding [95, 85, 75, 65] through check_thresholds
from the Normal state yields an AlertRaised event at 95 and no event at all
afterwards; in particular the last value emits nothing, not the
AlertCleared event the claim asserts. -/
theorem C3_cleared_event_counterexample :
    runCpuThresholds false [95, 85, 75, 65] =
      [[AlertEvent.alertRaised 95], [], [], []] ∧
    (runCpuThresholds false [95, 85, 75, 65]).getLast? ≠
      some [AlertEvent.alertCleared 65] := by
  exact ⟨by decide, by decide⟩

/-- C3 amended: on [95, 85, 75, 65] with thresholds 90/70 the machine
raises at 95, does nothing at 85 and 75 (the dead band), and at 65 it
transitions from Alerted back to Normal but emits no event: the source
clears its notified flag silently, so no AlertCleared notification exists
anywhere in the code. -/
theorem C3_amended_silent_clear :
    runCpuThresholds false [95, 85, 75, 65] =
      [[AlertEvent.alertRaised 95], [], [], []] ∧
    foldCpuThresholds false [95, 85, 75, 65] = false ∧
    (∀ v : ℚ, v < 70 → checkCpuThreshold true v = (false, [])) := by
  refine ⟨by decide, by decide, ?_⟩
  intro v hv
  have h90 : ¬ (90 < v ∧ (true : Bool) = false) := by simp
  simp [checkCpuThreshold, h90, hv]

/-- Witness for C3 amended: the clear transition at value 65 moves the
machine to Normal and emits nothing. -/
theorem C3_amended_silent_clear_witness :
    checkCpuThreshold true 65 = (false, []) :=
  C3_amended_silent_clear.2.2 65 (by norm_num)

end VitalViz

namespace VitalViz

/-! ## Claim C5: there is no first-tick skip -/

/-- C5 counterexample: the previous reading is seeded at construction
(counters 1000 at instant 0), so the very first tick (counters 3000 at
instant 2) computes the rate (3000 - 1000)/2 = 1000 instead of skipping
and reporting 0. -/
theorem C5_first_tick_counterexample :
    (updateTick (initState ⟨1000, 0, 0, 0⟩ 0 1) 2 [50] 42
        ⟨3000, 0, 0, 0⟩).network_sent_history = [1000] ∧
    (1000 : ℚ) ≠ 0 := by
  constructor
  · norm_num [updateTick, initState, pushHist, updateCpuHist]
  · norm_num

/-- C5 amended: rate computation is never skipped.  The constructor stores
the counters and clock read at construction as the previous sample, and the
first loop tick derives its rates against that seed, so the first-tick rate
equals (first reading - construction reading)/elapsed and is strictly
positive - not 0 - whenever the counter grew.  (Only the initial label
texts of the GUI show 0 B/s, until this first tick replaces them.) -/
theorem C5_amended_first_tick (c0 c1 : NetCounters) (t0 t1 : ℚ) (n : ℕ)
    (cpu : List ℚ) (mem : ℚ) (h : t1 - t0 ≠ 0) :
    (updateTick (initState c0 t0 n) t1 cpu mem c1).network_sent_history =
      [((c1.bytes_sent - c0.bytes_sent : ℤ) : ℚ) / (t1 - t0)] ∧
    (t0 < t1 → c0.bytes_sent < c1.bytes_sent →
      (0 : ℚ) < ((c1.bytes_sent - c0.bytes_sent : ℤ) : ℚ) / (t1 - t0)) := by
  constructor
  · norm_num [updateTick, initState, h, pushHist]
  · intro h1 h2
    apply div_pos
    · exact_mod_cast sub_pos.mpr h2
    · exact sub_pos.mpr h1

/-- Witness for C5 amended at the concrete first tick used above. -/
theorem C5_amended_first_tick_witness :
    (updateTick (initState ⟨1000, 0, 0, 0⟩ 0 1) 2 [50] 42
        ⟨3000, 0, 0, 0⟩).network_sent_history =
      [(((3000 : ℤ) - 1000 : ℤ) : ℚ) / ((2 : ℚ) - 0)] ∧
    (0 : ℚ) < (((3000 : ℤ) - 1000 : ℤ) : ℚ) / ((2 : ℚ) - 0) := by
  have h := C5_amended_first_tick ⟨1000, 0, 0, 0⟩ ⟨3000, 0, 0, 0⟩ 0 2 1 [50] 42
    (by norm_num)
  exact ⟨h.1, h.2 (by norm_num) (by norm_num)⟩

/-! ## Claim C6: the history-capacity setting is dead -/

/-- C6: evaluating the code at the failing input.  With every series
holding 60 points, saving the settings dialog with history length 10 only
stores the number: no series is truncated (memory_history is untouched),
and the next tick still trims with the local constant MAX_HISTORY = 60 of
update_data, leaving 60 points - the stored max_history is never read by
the loop, so the claimed truncation to the new capacity never happens. -/
theorem C6_capacity_setting_dead :
    (saveSettings fullState 1 10 true).memory_history = fullState.memory_history ∧
    (saveSettings fullState 1 10 true).max_history = 10 ∧
    (updateTick (saveSettings fullState 1 10 true) 1 [50] 42
        ⟨100, 100, 1, 1⟩).memory_history.length = 60 ∧
    ¬ (updateTick (saveSettings fullState 1 10 true) 1 [50] 42
        ⟨100, 100, 1, 1⟩).memory_history.length ≤ 10 := by
  have hl : (updateTick (saveSettings fullState 1 10 true) 1 [50] 42
      ⟨100, 100, 1, 1⟩).memory_history.length = 60 := by
    norm_num [updateTick, saveSettings, fullState, pushHist]
  exact ⟨rfl, rfl, hl, by omega⟩

/-! ## Claim C7: consumer failure is caught per tick, not per consumer -/

/-- Helper: a list of constant-false entries reads false at any index. -/
theorem getD_map_const_false {α : Type} (l : List α) (j : ℕ) :
    (l.map (fun _ => false)).getD j false = false := by
  induction l generalizing j with
  | nil => simp
  | cons a l ih =>
    cases j with
    | zero => simp
    | succ j =>
      simp only [List.map_cons, List.getD_cons_succ]
      exact ih j

/-- Helper: consumer i is invoked on a tick exactly when every consumer
dispatched before it succeeded on that tick. -/
theorem dispatchTick_invoked (cs : List (ℕ → Bool)) (t : ℕ) :
    ∀ i, i < cs.length →
      (dispatchTick cs t).getD i false = (cs.take i).all (fun c => c t) := by
  induction cs with
  | nil => intro i hi; simp at hi
  | cons c rest ih =>
    intro i hi
    cases i with
    | zero => by_cases h : c t <;> simp [dispatchTick, h]
    | succ j =>
      by_cases h : c t
      · simp only [dispatchTick, if_pos h, List.getD_cons_succ,
          List.take_succ_cons, List.all_cons, h, Bool.true_and]
        exact ih j (by simpa using hi)
      · have hc : c t = false := by simpa using h
        simp only [dispatchTick, hc, Bool.false_eq_true, if_false,
          List.getD_cons_succ, List.take_succ_cons, List.all_cons,
          Bool.false_and]
        exact getD_map_const_false rest j

/-- Helper: tick t of the loop is the dispatch of tick t. -/
theorem runLoop_getD (cs : List (ℕ → Bool)) (n t : ℕ) (ht : t < n) :
    (runLoop cs n).getD t [] = dispatchTick cs t := by
  simp [runLoop, List.getD_eq_getElem?_getD, List.getElem?_map,
    List.getElem?_range ht]

/-- C7 counterexample: with a consumer that raises on every delivery
registered first and a well-behaved consumer second, the loop does run all
3 ticks, and the raising consumer is delivered every tick, but the
well-behaved consumer is invoked on none of them - the exception is caught
at the whole-tick boundary, not at the per-consumer dispatch boundary, so
it does prevent the other consumer from receiving ticks. -/
theorem C7_dispatch_isolation_counterexample :
    (runLoop [fun _ => false, fun _ => true] 3).length = 3 ∧
    (runLoop [fun _ => false, fun _ => true] 3).map (fun l => l.getD 0 false) =
      [true, true, true] ∧
    (runLoop [fun _ => false, fun _ => true] 3).map (fun l => l.getD 1 false) =
      [false, false, false] := by
  refine ⟨rfl, rfl, rfl⟩

/-- C7 amended: a raising consumer never aborts the sampling loop (the
whole tick body sits in one try/except whose handler only prints), but
isolation is per tick, not per consumer: the rest of the tick body is
skipped after the exception, so a consumer is invoked on a tick exactly
when every consumer dispatched before it succeeded on that tick; consumers
registered before a raising one receive every tick, those after it receive
none of the ticks on which it raised.  (The basic GUI variant,
system_dashboard_gui.py, has no try/except at all: there an exception
escaping a delivery would end the update thread.) -/
theorem C7_amended_per_tick_isolation (cs : List (ℕ → Bool)) (n i t : ℕ) :
    (runLoop cs n).length = n ∧
    (t < n → i < cs.length →
      ((runLoop cs n).getD t []).getD i false =
        (cs.take i).all (fun c => c t)) := by
  refine ⟨by simp [runLoop], ?_⟩
  intro ht hi
  rw [runLoop_getD cs n t ht, dispatchTick_invoked cs t i hi]

/-- Witness for C7 amended: three consumers, the middle one raising on
every tick; on tick 0 of a 2-tick run the loop has length 2 and the last
consumer's invocation equals the conjunction of its predecessors'
outcomes, which is false. -/
theorem C7_amended_per_tick_isolation_witness :
    (runLoop [fun _ => true, fun _ => false, fun _ => true] 2).length = 2 ∧
    ((runLoop [fun _ => true, fun _ => false, fun _ => true] 2).getD 0 []).getD
        2 false = false := by
  have h := C7_amended_per_tick_isolation
    [fun _ => true, fun _ => false, fun _ => true] 2 2 0
  refine ⟨h.1, ?_⟩
  rw [h.2 (by norm_num) (by norm_num)]
  rfl

end VitalViz

namespace VitalViz

/-! ## Claim C8: reset clears every series, the next push refills to one -/

/-- Helper: pushing one usage list into per-core histories that are all
empty yields one singleton history per core. -/
theorem updateCpuHist_replicate (us : List ℚ) :
    updateCpuHist (List.replicate us.length []) us = us.map (fun u => [u]) := by
  induction us with
  | nil => rfl
  | cons u us ih =>
    simp only [List.length_cons, List.replicate_succ, updateCpuHist,
      List.map_cons, ih]
    norm_num [pushHist]

/-- C8: after reset_graphs every series (per-core CPU, memory percent,
network send and receive rates, timestamps) has length 0, and the next
update tick (with a nonzero elapsed time and one usage value per core)
pushes exactly one value into each, producing series of length 1. -/
theorem C8_reset_then_push (s : MonState) (n : ℕ) (now : ℚ) (cpu : List ℚ)
    (mem : ℚ) (curr : NetCounters) (ht : now - s.prev_time ≠ 0)
    (hc : cpu.length = n) :
    ((resetGraphs s n).memory_history.length = 0 ∧
     (resetGraphs s n).network_sent_history.length = 0 ∧
     (resetGraphs s n).network_recv_history.length = 0 ∧
     (resetGraphs s n).time_points.length = 0 ∧
     ∀ h ∈ (resetGraphs s n).cpu_history, h.length = 0) ∧
    ((updateTick (resetGraphs s n) now cpu mem curr).memory_history.length = 1 ∧
     (updateTick (resetGraphs s n) now cpu mem curr).network_sent_history.length = 1 ∧
     (updateTick (resetGraphs s n) now cpu mem curr).network_recv_history.length = 1 ∧
     (updateTick (resetGraphs s n) now cpu mem curr).time_points.length = 1 ∧
     ∀ h ∈ (updateTick (resetGraphs s n) now cpu mem curr).cpu_history,
       h.length = 1) := by
  subst hc
  constructor
  · refine ⟨rfl, rfl, rfl, rfl, ?_⟩
    intro h hmem
    simp only [resetGraphs] at hmem
    rw [List.eq_of_mem_replicate hmem]
    rfl
  · refine ⟨?_, ?_, ?_, ?_, ?_⟩ <;>
      simp only [updateTick, resetGraphs, updateCpuHist_replicate, if_neg ht]
    · norm_num [pushHist]
    · norm_num
    · norm_num
    · norm_num [pushHist]
    · intro h hmem
      simp only [List.mem_map] at hmem
      obtain ⟨u, _, rfl⟩ := hmem
      rfl

/-- Witness for C8 at a concrete input: reset a freshly constructed
single-core monitor, then run one tick at instant 1. -/
theorem C8_reset_then_push_witness :
    (resetGraphs (initState ⟨0, 0, 0, 0⟩ 0 1) 1).memory_history.length = 0 ∧
    (updateTick (resetGraphs (initState ⟨0, 0, 0, 0⟩ 0 1) 1) 1 [50] 42
        ⟨5, 5, 1, 1⟩).memory_history.length = 1 ∧
    (updateTick (resetGraphs (initState ⟨0, 0, 0, 0⟩ 0 1) 1) 1 [50] 42
        ⟨5, 5, 1, 1⟩).network_sent_history.length = 1 := by
  have h := C8_reset_then_push (initState ⟨0, 0, 0, 0⟩ 0 1) 1 1 [50] 42
    ⟨5, 5, 1, 1⟩ (by norm_num [initState]) (by simp)
  exact ⟨h.1.1, h.2.1, h.2.2.1⟩

/-! ## Claim C9: send and receive histories keep equal lengths -/

/-- Helper: one update tick preserves equality of the two network history
lengths (both are trimmed under the shared condition on the sent history
and both receive one appended rate, or on a zero elapsed time neither is
touched). -/
theorem updateTick_net_lengths (s : MonState) (now : ℚ) (cpu : List ℚ)
    (mem : ℚ) (curr : NetCounters)
    (h : s.network_sent_history.length = s.network_recv_history.length) :
    (updateTick s now cpu mem curr).network_sent_history.length =
      (updateTick s now cpu mem curr).network_recv_history.length := by
  by_cases h0 : now - s.prev_time = 0
  · simp only [updateTick, if_pos h0]
    exact h
  · by_cases h60 : 60 ≤ s.network_sent_history.length
    · simp only [updateTick, if_neg h0, if_pos h60, List.length_append,
        List.length_drop, List.length_singleton]
      omega
    · simp only [updateTick, if_neg h0, if_neg h60, List.length_append,
        List.length_singleton]
      omega

/-- Helper: the equal-length invariant is preserved by any tick sequence. -/
theorem runTicks_net_lengths (ts : List (ℚ × List ℚ × ℚ × NetCounters)) :
    ∀ s : MonState,
      s.network_sent_history.length = s.network_recv_history.length →
      (runTicks s ts).network_sent_history.length =
        (runTicks s ts).network_recv_history.length := by
  induction ts with
  | nil => intro s h; exact h
  | cons t ts ih =>
    intro s h
    exact ih _ (updateTick_net_lengths s t.1 t.2.1 t.2.2.1 t.2.2.2 h)

/-- C9: starting from the initial (empty) state, after any sequence of
update-loop ticks the network send-rate history and receive-rate history
have equal length. -/
theorem C9_net_histories_equal_length (ts : List (ℚ × List ℚ × ℚ × NetCounters))
    (c0 : NetCounters) (t0 : ℚ) (n : ℕ) :
    (runTicks (initState c0 t0 n) ts).network_sent_history.length =
      (runTicks (initState c0 t0 n) ts).network_recv_history.length :=
  runTicks_net_lengths ts (initState c0 t0 n) rfl

end VitalViz

namespace VitalViz

/-! ## Claim C10: size_formatter unit selection -/

/-- Unfolding lemma: an exhausted unit list reports PB. -/
theorem sizeFormatterGo_nil (v : ℚ) : sizeFormatterGo v [] = (v, "PB") := rfl

/-- Unfolding lemma: one loop iteration of size_formatter. -/
theorem sizeFormatterGo_cons (v : ℚ) (u : String) (us : List String) :
    sizeFormatterGo v (u :: us) =
      if v < 1024 then (v, u) else sizeFormatterGo (v / 1024) us := rfl

/-- Unfolding lemma: size_formatter starts the loop on the five units. -/
theorem sizeFormatter_def (v : ℚ) :
    sizeFormatter v = sizeFormatterGo v ["B", "KB", "MB", "GB", "TB"] := rfl

/-- C10: for every non-negative v, size_formatter scales v by 1024^k for
the smallest k in 0..4 with v / 1024^k < 1024 and reports the matching
unit among B, KB, MB, GB, TB, the reported number lying in [0, 1024); when
no such k exists it reports v / 1024^5 with unit PB. -/
theorem C10_size_formatter_units (v : ℚ) (hv : 0 ≤ v) :
    (∀ k : ℕ, k ≤ 4 → v / 1024 ^ k < 1024 →
        (∀ j, j < k → ¬ v / 1024 ^ j < 1024) →
        sizeFormatter v = (v / 1024 ^ k, sizeUnits.getD k "PB") ∧
        0 ≤ v / 1024 ^ k ∧ v / 1024 ^ k < 1024) ∧
    ((∀ k : ℕ, k ≤ 4 → ¬ v / 1024 ^ k < 1024) →
        sizeFormatter v = (v / 1024 ^ 5, "PB")) := by
  have h0eq : v / 1024 ^ 0 = v := by rw [pow_zero, div_one]
  have e1 : v / 1024 = v / 1024 ^ 1 := by rw [pow_one]
  have e2 : v / 1024 / 1024 = v / 1024 ^ 2 := by
    rw [div_div]; norm_num
  have e3 : v / 1024 / 1024 / 1024 = v / 1024 ^ 3 := by
    rw [div_div, div_div]; norm_num
  have e4 : v / 1024 / 1024 / 1024 / 1024 = v / 1024 ^ 4 := by
    rw [div_div, div_div, div_div]; norm_num
  have e5 : v / 1024 / 1024 / 1024 / 1024 / 1024 = v / 1024 ^ 5 := by
    rw [div_div, div_div, div_div, div_div]; norm_num
  constructor
  · intro k hk hlt hmin
    have hnn : 0 ≤ v / 1024 ^ k := div_nonneg hv (by positivity)
    refine ⟨?_, hnn, hlt⟩
    interval_cases k
    · have c0 : v < 1024 := by rwa [h0eq] at hlt
      rw [sizeFormatter_def, sizeFormatterGo_cons, if_pos c0, h0eq]
      rfl
    · have n0 : ¬ v < 1024 := by
        have := hmin 0 (by omega); rwa [h0eq] at this
      have c1 : v / 1024 < 1024 := by rwa [← e1] at hlt
      rw [sizeFormatter_def, sizeFormatterGo_cons, if_neg n0,
        sizeFormatterGo_cons, if_pos c1, e1]
      rfl
    · have n0 : ¬ v < 1024 := by
        have := hmin 0 (by omega); rwa [h0eq] at this
      have n1 : ¬ v / 1024 < 1024 := by
        have := hmin 1 (by omega); rwa [← e1] at this
      have c2 : v / 1024 / 1024 < 1024 := by rwa [← e2] at hlt
      rw [sizeFormatter_def, sizeFormatterGo_cons, if_neg n0,
        sizeFormatterGo_cons, if_neg n1, sizeFormatterGo_cons, if_pos c2, e2]
      rfl
    · have n0 : ¬ v < 1024 := by
        have := hmin 0 (by omega); rwa [h0eq] at this
      have n1 : ¬ v / 1024 < 1024 := by
        have := hmin 1 (by omega); rwa [← e1] at this
      have n2 : ¬ v / 1024 / 1024 < 1024 := by
        have := hmin 2 (by omega); rwa [← e2] at this
      have c3 : v / 1024 / 1024 / 1024 < 1024 := by rwa [← e3] at hlt
      rw [sizeFormatter_def, sizeFormatterGo_cons, if_neg n0,
        sizeFormatterGo_cons, if_neg n1, sizeFormatterGo_cons, if_neg n2,
        sizeFormatterGo_cons, if_pos c3, e3]
      rfl
    · have n0 : ¬ v < 1024 := by
        have := hmin 0 (by omega); rwa [h0eq] at this
      have n1 : ¬ v / 1024 < 1024 := by
        have := hmin 1 (by omega); rwa [← e1] at this
      have n2 : ¬ v / 1024 / 1024 < 1024 := by
        have := hmin 2 (by omega); rwa [← e2] at this
      have n3 : ¬ v / 1024 / 1024 / 1024 < 1024 := by
        have := hmin 3 (by omega); rwa [← e3] at this
      have c4 : v / 1024 / 1024 / 1024 / 1024 < 1024 := by rwa [← e4] at hlt
      rw [sizeFormatter_def, sizeFormatterGo_cons, if_neg n0,
        sizeFormatterGo_cons, if_neg n1, sizeFormatterGo_cons, if_neg n2,
        sizeFormatterGo_cons, if_neg n3, sizeFormatterGo_cons, if_pos c4, e4]
      rfl
  · intro hall
    have n0 : ¬ v < 1024 := by
      have := hall 0 (by omega); rwa [h0eq] at this
    have n1 : ¬ v / 1024 < 1024 := by
      have := hall 1 (by omega); rwa [← e1] at this
    have n2 : ¬ v / 1024 / 1024 < 1024 := by
      have := hall 2 (by omega); rwa [← e2] at this
    have n3 : ¬ v / 1024 / 1024 / 1024 < 1024 := by
      have := hall 3 (by omega); rwa [← e3] at this
    have n4 : ¬ v / 1024 / 1024 / 1024 / 1024 < 1024 := by
      have := hall 4 (by omega); rwa [← e4] at this
    rw [sizeFormatter_def, sizeFormatterGo_cons, if_neg n0,
      sizeFormatterGo_cons, if_neg n1, sizeFormatterGo_cons, if_neg n2,
      sizeFormatterGo_cons, if_neg n3, sizeFormatterGo_cons, if_neg n4,
      sizeFormatterGo_nil, e5]

/-- Witness for C10 at the concrete input 1048576 = 1024^2 bytes, reported
as 1.00 MB: the smallest scaling exponent is 2. -/
theorem C10_size_formatter_units_witness :
    sizeFormatter 1048576 = ((1048576 : ℚ) / 1024 ^ 2, sizeUnits.getD 2 "PB") ∧
    0 ≤ (1048576 : ℚ) / 1024 ^ 2 ∧ (1048576 : ℚ) / 1024 ^ 2 < 1024 := by
  refine (C10_size_formatter_units 1048576 (by norm_num)).1 2 (by norm_num)
    (by norm_num) ?_
  intro j hj
  interval_cases j <;> norm_num

end VitalViz
